import Mathlib

/-!
# Travel Assistant orchestration core — shallow embedding

A shallow embedding of the agent orchestration core of the Travel Assistant
repository (`src/graph/state.py`, `src/graph/nodes.py`, `src/graph/tools.py`,
`src/graph/graph_builder.py`, `src/vector_store/setup.py`,
`src/mock_apis/weather_mock.py`, `src/mock_apis/image_mock.py`).

External effects (the language model, the ChromaDB collection, the simulated
clock used for forecast dates) are modelled as explicit oracle parameters;
`async` functions become plain functions of those oracles; a Python exception
raised by a collaborator becomes an `Except.error`; Python `None` becomes
`Option.none`.  Python floats occurring here (temperatures, humidities,
distances) are plain decimal literals that `json.dumps`/`json.loads`
round-trip exactly, so they are modelled as `ℚ`, written `mkRat m 10` /
`mkRat m 100` for the source's one- and two-digit decimals (e.g. `8.5` is
`mkRat 85 10`) to keep them kernel-computable.
-/

namespace TravelAssistant

/-! ## Python string helpers

Only the ASCII behaviour matters: every string these helpers touch in the
program (city names, the sentinels "Unknown"/"None") is ASCII. -/

/-- Python `str.strip()` (strip leading/trailing whitespace). -/
def pyStrip (s : String) : String :=
  ⟨((s.data.dropWhile Char.isWhitespace).reverse.dropWhile Char.isWhitespace).reverse⟩

/-- Python `str.strip(".")`: drop leading and trailing `'.'` characters. -/
def stripDots (s : String) : String :=
  ⟨((s.data.dropWhile (· = '.')).reverse.dropWhile (· = '.')).reverse⟩

/-- Python `str.lower()` (ASCII range). -/
def pyLower (s : String) : String := ⟨s.data.map Char.toLower⟩

/-- Helper for `pythonTitle`: the boolean records whether the previous
character was alphabetic (Python: "cased"). -/
def pythonTitleAux : Bool → List Char → List Char
  | _, [] => []
  | prevCased, c :: cs =>
    if c.isAlpha then
      (if prevCased then c.toLower else c.toUpper) :: pythonTitleAux true cs
    else
      c :: pythonTitleAux false cs

/-- Python `str.title()`: first letter of every alphabetic run uppercased,
the rest lowercased. -/
def pythonTitle (s : String) : String := ⟨pythonTitleAux false s.data⟩

/-- Python truthiness of an `Optional[str]` field: `None` and `""` are falsy. -/
def strTruthy : Option String → Bool
  | none => false
  | some s => s ≠ ""

/-- Python `x or []` for an `Optional[List]` field. -/
def optList {α : Type} : Option (List α) → List α
  | none => []
  | some l => l

/-! ## Data model (`src/graph/state.py`) -/

/-- A JSON value, the image of Python `json.dumps` on the data this program
serializes (strings, numbers, lists, dicts). -/
inductive Json : Type where
  | str (s : String)
  | num (q : ℚ)
  | arr (xs : List Json)
  | obj (fields : List (String × Json))

/-- `WeatherDataPoint` (pydantic model in `state.py`). -/
structure WeatherDataPoint : Type where
  date : String
  temperature : ℚ
  condition : String
  humidity : ℚ
deriving DecidableEq, Repr

/-- `StructuredOutput` (pydantic model in `state.py`). -/
structure StructuredOutput : Type where
  city_summary : String
  weather_forecast : List WeatherDataPoint
  image_urls : List String
deriving DecidableEq, Repr

/-- A model-issued tool invocation request (LangChain `tool_call` dict:
`id`, `name`, `args`).  The argument map is an association list of string
keys to string values, which covers every tool in the catalog (`city`,
`query`). -/
structure ToolCall : Type where
  id : String
  name : String
  args : List (String × String)
deriving DecidableEq, Repr

/-- The conversational message union (LangChain `HumanMessage` /
`AIMessage` with `tool_calls` / `ToolMessage`), as the tagged variant the
program distinguishes.  A `ToolMessage`'s `content` is the JSON text built
by `json.dumps`, kept here as the `Json` value it denotes. -/
inductive Message : Type where
  | human (content : String)
  | ai (content : String) (tool_calls : List ToolCall)
  | tool (tool_call_id : String) (name : String) (content : Json)

/-- `tool_calls` of a message when present; `hasattr(msg, 'tool_calls')`
fails on human and tool messages, which the guard treats like an empty
list. -/
def Message.toolCalls : Message → List ToolCall
  | .ai _ tcs => tcs
  | _ => []

/-- `AgentState` (`state.py`).  All fields other than `messages` default to
`None` in the source. -/
structure AgentState : Type where
  messages : List Message
  city_name : Option String := none
  vector_store_match : Option Bool := none
  cache_hit : Option Bool := none
  city_summary : Option String := none
  weather_data : Option (List WeatherDataPoint) := none
  image_urls : Option (List String) := none
  final_output : Option StructuredOutput := none
  error_message : Option String := none

/-! ## Mock APIs (`src/mock_apis/weather_mock.py`, `src/mock_apis/image_mock.py`)

`fetch_weather_forecast` computes its date strings from `datetime.now()`;
the clock is externalized as `dates : Nat → String`, where `dates i` is the
formatted date `i + 1` days from now (`dates[i]` in the source). -/

/-- The fallback branch of `fetch_weather_forecast` for cities not in the
pre-loaded table: 7 generated points. -/
def fallbackForecast (dates : Nat → String) : List WeatherDataPoint :=
  (List.range 7).map fun i =>
    { date := dates i
      temperature := ((15 + i % 3 : ℕ) : ℚ)
      condition := (["Sunny", "Cloudy", "Rainy"].getD (i % 3) "")
      humidity := ((60 + (i % 2) * 10 : ℕ) : ℚ) }

/-- `fetch_weather_forecast` (`weather_mock.py`): pre-loaded 7-day forecasts
for five known cities, generated fallback otherwise. -/
def fetch_weather_forecast (city : String) (dates : Nat → String) :
    List WeatherDataPoint :=
  if city = "Paris" then
    [⟨dates 0, mkRat 85 10, "Cloudy", 72⟩, ⟨dates 1, mkRat 72 10, "Rainy", 85⟩,
     ⟨dates 2, mkRat 91 10, "Partly Cloudy", 68⟩, ⟨dates 3, mkRat 68 10, "Clear", 55⟩,
     ⟨dates 4, mkRat 55 10, "Cold", 48⟩, ⟨dates 5, mkRat 63 10, "Overcast", 62⟩,
     ⟨dates 6, mkRat 78 10, "Cloudy", 70⟩]
  else if city = "Tokyo" then
    [⟨dates 0, mkRat 153 10, "Clear", 45⟩, ⟨dates 1, mkRat 148 10, "Sunny", 42⟩,
     ⟨dates 2, mkRat 162 10, "Clear", 48⟩, ⟨dates 3, mkRat 171 10, "Sunny", 50⟩,
     ⟨dates 4, mkRat 159 10, "Partly Cloudy", 55⟩, ⟨dates 5, mkRat 145 10, "Rainy", 68⟩,
     ⟨dates 6, mkRat 132 10, "Windy", 60⟩]
  else if city = "New York" then
    [⟨dates 0, mkRat 21 10, "Snowy", 80⟩, ⟨dates 1, mkRat 5 10, "Freezing", 75⟩,
     ⟨dates 2, mkRat 13 10, "Snow", 82⟩, ⟨dates 3, mkRat 32 10, "Clear", 60⟩,
     ⟨dates 4, mkRat 45 10, "Partly Cloudy", 65⟩, ⟨dates 5, mkRat 28 10, "Cloudy", 70⟩,
     ⟨dates 6, mkRat 19 10, "Cold", 75⟩]
  else if city = "London" then
    [⟨dates 0, mkRat 92 10, "Rainy", 78⟩, ⟨dates 1, mkRat 85 10, "Cloudy", 75⟩,
     ⟨dates 2, mkRat 101 10, "Partly Cloudy", 70⟩, ⟨dates 3, mkRat 98 10, "Overcast", 72⟩,
     ⟨dates 4, mkRat 83 10, "Rainy", 80⟩, ⟨dates 5, mkRat 79 10, "Drizzle", 76⟩,
     ⟨dates 6, mkRat 95 10, "Cloudy", 74⟩]
  else if city = "Sydney" then
    [⟨dates 0, mkRat 265 10, "Sunny", 45⟩, ⟨dates 1, mkRat 272 10, "Clear", 42⟩,
     ⟨dates 2, mkRat 258 10, "Partly Cloudy", 48⟩, ⟨dates 3, mkRat 243 10, "Cloudy", 55⟩,
     ⟨dates 4, mkRat 229 10, "Rainy", 68⟩, ⟨dates 5, mkRat 235 10, "Showers", 72⟩,
     ⟨dates 6, mkRat 251 10, "Clear", 50⟩]
  else
    fallbackForecast dates

/-- The pre-loaded image URL table of `image_mock.py`, in insertion order. -/
def image_database : List (String × List String) :=
  [("Paris",
    ["https://upload.wikimedia.org/wikipedia/commons/thumb/4/4b/La_Tour_Eiffel_vue_de_la_Tour_Saint-Jacques_-_Paris_-_20140824.jpg/640px-La_Tour_Eiffel_vue_de_la_Tour_Saint-Jacques_-_Paris_-_20140824.jpg",
     "https://upload.wikimedia.org/wikipedia/commons/thumb/6/66/Louvre_Museum_Wikimedia_Commons.jpg/640px-Louvre_Museum_Wikimedia_Commons.jpg",
     "https://upload.wikimedia.org/wikipedia/commons/thumb/d/d6/Paris_Night.jpg/640px-Paris_Night.jpg"]),
   ("Tokyo",
    ["https://upload.wikimedia.org/wikipedia/commons/thumb/b/b2/Skyscrapers_of_Shinjuku_2009_January.jpg/640px-Skyscrapers_of_Shinjuku_2009_January.jpg",
     "https://upload.wikimedia.org/wikipedia/commons/thumb/4/4e/Tokyo_from_the_top_of_the_SkyTree.JPG/440px-Tokyo_from_the_top_of_the_SkyTree.JPG",
     "https://upload.wikimedia.org/wikipedia/commons/thumb/9/95/Tokyo_station_from_marunouchi_oazo.JPG/640px-Tokyo_station_from_marunouchi_oazo.JPG"]),
   ("New York",
    ["https://upload.wikimedia.org/wikipedia/commons/thumb/0/05/View_of_Empire_State_Building_from_Rockefeller_Center_New_York_City_dllu.jpg/640px-View_of_Empire_State_Building_from_Rockefeller_Center_New_York_City_dllu.jpg",
     "https://upload.wikimedia.org/wikipedia/commons/thumb/c/c7/Empire_State_Building_from_the_Top_of_the_Rock.jpg/640px-Empire_State_Building_from_the_Top_of_the_Rock.jpg",
     "https://upload.wikimedia.org/wikipedia/commons/thumb/b/b9/Above_Gotham.jpg/640px-Above_Gotham.jpg"]),
   ("London",
    ["https://upload.wikimedia.org/wikipedia/commons/thumb/6/67/London_Skyline_%28125508655%29.jpeg/640px-London_Skyline_%28125508655%29.jpeg",
     "https://upload.wikimedia.org/wikipedia/commons/thumb/8/87/Palace_of_Westminster_from_the_dome_on_Methodist_Central_Hall.jpg/640px-Palace_of_Westminster_from_the_dome_on_Methodist_Central_Hall.jpg",
     "https://upload.wikimedia.org/wikipedia/commons/thumb/e/e4/Palace_of_Westminster_from_the_dome_on_Methodist_Central_Hall_%28cropped%29.jpg/640px-Palace_of_Westminster_from_the_dome_on_Methodist_Central_Hall_%28cropped%29.jpg"]),
   ("Sydney",
    ["https://upload.wikimedia.org/wikipedia/commons/thumb/5/53/Sydney_Opera_House_and_Harbour_Bridge_Dusk_%282%29_2019.jpg/640px-Sydney_Opera_House_and_Harbour_Bridge_Dusk_%282%29_2019.jpg",
     "https://upload.wikimedia.org/wikipedia/commons/thumb/7/7c/Sydney_Opera_House_-_Dec_2008.jpg/640px-Sydney_Opera_House_-_Dec_2008.jpg",
     "https://upload.wikimedia.org/wikipedia/commons/thumb/2/2e/Bondi_Beach_2006.jpg/640px-Bondi_Beach_2006.jpg"]),
   ("Barcelona",
    ["https://upload.wikimedia.org/wikipedia/commons/thumb/2/25/Sagrada_Familia_2022.jpg/640px-Sagrada_Familia_2022.jpg",
     "https://upload.wikimedia.org/wikipedia/commons/thumb/8/8d/Barcelona_beach.jpg/640px-Barcelona_beach.jpg",
     "https://upload.wikimedia.org/wikipedia/commons/thumb/5/56/Park_Guell_Barcelona.jpg/640px-Park_Guell_Barcelona.jpg"]),
   ("Dubai",
    ["https://upload.wikimedia.org/wikipedia/commons/thumb/c/cc/Dubai_Skylines_at_night_%28Pexels_3787839%29.jpg/640px-Dubai_Skylines_at_night_%28Pexels_3787839%29.jpg",
     "https://upload.wikimedia.org/wikipedia/commons/thumb/d/d3/Burj_Khalifa.jpg/460px-Burj_Khalifa.jpg",
     "https://upload.wikimedia.org/wikipedia/commons/thumb/4/4e/Dubai_Marina_Skyline.jpg/640px-Dubai_Marina_Skyline.jpg"])]

/-- The 3 placeholder URLs `fetch_city_images` returns for an unknown city. -/
def placeholderImages (city : String) : List String :=
  ["https://placehold.co/600x400?text=" ++ city ++ "+Image+1",
   "https://placehold.co/600x400?text=" ++ city ++ "+Image+2",
   "https://placehold.co/600x400?text=" ++ city ++ "+Image+3"]

/-- `fetch_city_images` (`image_mock.py`): case-insensitive lookup over the
table keys in insertion order, placeholder fallback. -/
def fetch_city_images (city : String) : List String :=
  match image_database.find? (fun kv => pyLower kv.fst = pyLower city) with
  | some kv => kv.snd
  | none => placeholderImages city

/-! ## Tool executor (`src/graph/tools.py`) -/

/-- The typed result of one tool execution (`execute_tool` returns a list of
`WeatherDataPoint`, a list of URL strings, or a search string). -/
inductive ToolResult : Type where
  | weather (points : List WeatherDataPoint)
  | images (urls : List String)
  | search (text : String)
deriving DecidableEq, Repr

/-- Python `tool_input.get(key, default)`. -/
def pyGetArg (args : List (String × String)) (key dflt : String) : String :=
  (args.lookup key).getD dflt

/-- `execute_tool` (`tools.py`): dispatch on the tool name; the unknown-name
branch raises `ValueError`, modelled as `Except.error`. -/
def execute_tool (tool_name : String) (tool_input : List (String × String))
    (dates : Nat → String) : Except String ToolResult :=
  if tool_name = "get_weather" then
    .ok (.weather (fetch_weather_forecast (pyGetArg tool_input "city" "Unknown") dates))
  else if tool_name = "get_images" then
    .ok (.images (fetch_city_images (pyGetArg tool_input "city" "Unknown")))
  else if tool_name = "web_search" then
    let query := pyGetArg tool_input "query" "Unknown"
    .ok (.search ("Search results for '" ++ query ++ "': Found information about "
                  ++ query ++ "."))
  else
    .error ("Unknown tool: " ++ tool_name)

/-! ## Knowledge store gateway (`src/vector_store/setup.py`)

The ChromaDB collection is externalized as an oracle mapping a query text to
either a raised I/O error or the nearest-neighbor result (`none` when the
store returns no documents).  `collection.query(query_texts=[city],
n_results=1)` is deterministic within a turn, so one function serves both
`query_vector_store` and `get_city_fact`. -/

/-- The nearest match returned by `collection.query`: its cosine distance
and the stored document text. -/
structure QueryResult : Type where
  distance : ℚ
  document : String

/-- The knowledge-store oracle. -/
abbrev Store := String → Except String (Option QueryResult)

/-- `query_vector_store` (`setup.py`): distance-threshold decision.  The
`try/except` around the query catches every store error and returns `False`
(a miss), so the function is total. -/
def query_vector_store (store : Store) (city : String) (threshold : ℚ) : Bool :=
  match store city with
  | .error _ => false
  | .ok none => false
  | .ok (some r) => decide (r.distance < threshold)

/-- `get_city_fact` (`setup.py`): retrieve and strip the stored fact text;
every store error is caught and becomes `""`, as does an empty result. -/
def get_city_fact (store : Store) (city : String) : String :=
  match store city with
  | .error _ => ""
  | .ok none => ""
  | .ok (some r) => pyStrip r.document

/-! ## Stage functions (`src/graph/nodes.py`) -/

/-- `destination.lower() in ["unknown", "none", ""]` — the empty/unknown
extraction sentinel test of `node_classify_query`. -/
def isUnknownExtraction (d : String) : Bool :=
  pyLower d = "unknown" ∨ pyLower d = "none" ∨ pyLower d = ""

/-- The normalization `response.content.strip().strip(".").strip()` applied
to the extractor's reply in `node_classify_query`. -/
def normalizeExtraction (raw : String) : String :=
  pyStrip (stripDots (pyStrip raw))

/-- The field clearing shared by the unknown-entity and new-entity branches
of `node_classify_query`. -/
def clearDerivedFields (s : AgentState) : AgentState :=
  { s with weather_data := some [], image_urls := some [],
           city_summary := none, final_output := none,
           vector_store_match := some false, cache_hit := some false }

/-- `node_classify_query` (`nodes.py`).  `extractionRaw` is the content of
the extraction LLM's reply (the call has no surrounding `try`, so a failed
call aborts the turn and no state results). -/
def node_classify_query (s : AgentState) (extractionRaw : String) : AgentState :=
  let destination := normalizeExtraction extractionRaw
  if isUnknownExtraction destination then
    match s.city_name with
    | some prev =>
      if prev ≠ "" ∧ prev ≠ "Unknown" then
        -- reuse branch: only weather/images cleared, then `destination.title()`
        { s with city_name := some (pythonTitle prev),
                 weather_data := some [], image_urls := some [] }
      else
        { clearDerivedFields s with city_name := some (pythonTitle "Unknown") }
    | none =>
      { clearDerivedFields s with city_name := some (pythonTitle "Unknown") }
  else
    { clearDerivedFields s with city_name := some (pythonTitle destination) }

/-- `node_check_vector_store` (`nodes.py`): threshold `0.5` (`mkRat 5 10`) is passed at the
call site.  `query_vector_store` and `get_city_fact` catch every store error
internally, so the node's own `except` branch (which would set
`error_message`) is unreachable for store failures. -/
def node_check_vector_store (s : AgentState) (store : Store) : AgentState :=
  match s.city_name with
  | none => { s with vector_store_match := some false, cache_hit := some false }
  | some city =>
    if city = "" ∨ city = "Unknown" then
      { s with vector_store_match := some false, cache_hit := some false }
    else
      let cityNormalized := pyStrip city
      if query_vector_store store cityNormalized (mkRat 5 10) then
        { s with vector_store_match := some true, cache_hit := some true,
                 city_summary := some (get_city_fact store cityNormalized) }
      else
        { s with vector_store_match := some false, cache_hit := some false }

/-- `node_use_cached_context` (`nodes.py`).  The two oracles are the results
of the gathered `execute_tool("get_weather", …)` / `execute_tool("get_images",
…)` calls; with `return_exceptions=True` a raised exception arrives as a
value (`Except.error`), and the `isinstance(result, list)` checks turn it
into an empty list. -/
def node_use_cached_context (s : AgentState)
    (weatherResult : Except String (List WeatherDataPoint))
    (imagesResult : Except String (List String)) : AgentState :=
  if strTruthy s.city_summary then
    { s with
        weather_data := some (match weatherResult with | .ok l => l | .error _ => [])
        image_urls := some (match imagesResult with | .ok l => l | .error _ => []) }
  else
    s

/-- `node_call_llm_with_tools` (`nodes.py`): append the model's reply to
`messages`; a failed call is caught and recorded in `error_message`. -/
def node_call_llm_with_tools (s : AgentState)
    (llmResponse : Except String Message) : AgentState :=
  match llmResponse with
  | .ok response => { s with messages := s.messages ++ [response] }
  | .error e => { s with error_message := some e }

/-- `WeatherDataPoint.dict()` (`state.py`) followed by `json.dumps`: the
four fields in declaration order. -/
def WeatherDataPoint.toJson (p : WeatherDataPoint) : Json :=
  .obj [("date", .str p.date), ("temperature", .num p.temperature),
        ("condition", .str p.condition), ("humidity", .num p.humidity)]

/-- The success-side serialization of `node_execute_tools_parallel`:
a list result maps `item.dict()` over its items (URL strings pass through),
and any other (scalar) result is stringified. -/
def serializeToolResult : ToolResult → Json
  | .weather ps => .arr (ps.map WeatherDataPoint.toJson)
  | .images us => .arr (us.map Json.str)
  | .search s => .str s

/-- One manually constructed `ToolMessage`, correlated by the request's id
and name; a failed invocation is encoded as
`json.dumps({"error": str(result), "tool": tool_call["name"]})`. -/
def mkToolMessage (tc : ToolCall) (outcome : Except String ToolResult) : Message :=
  match outcome with
  | .error e => .tool tc.id tc.name (.obj [("error", .str e), ("tool", .str tc.name)])
  | .ok r => .tool tc.id tc.name (serializeToolResult r)

/-- The capture loop of `node_execute_tools_parallel` STEP 3: each
successful `get_weather` (`get_images`) result overwrites
`weather_data_found` (`image_urls_found`).  The two wildcard fallbacks keep
the accumulator on an ill-typed result, which cannot arise when the
executor is `execute_tool` (see `execute_tool_result_shape`). -/
def captureResults (ex : ToolCall → Except String ToolResult) :
    List ToolCall → List WeatherDataPoint → List String →
    List WeatherDataPoint × List String
  | [], w, i => (w, i)
  | tc :: rest, w, i =>
    match ex tc with
    | .error _ => captureResults ex rest w i
    | .ok r =>
      if tc.name = "get_weather" then
        match r with
        | .weather ps => captureResults ex rest ps i
        | _ => captureResults ex rest w i
      else if tc.name = "get_images" then
        match r with
        | .images us => captureResults ex rest w us
        | _ => captureResults ex rest w i
      else
        captureResults ex rest w i

/-- `node_execute_tools_parallel` (`nodes.py`).  `ex` maps each request to
its gathered outcome (`asyncio.gather(..., return_exceptions=True)` returns
one value or exception per task, in request order — modelled by applying
`ex` pointwise).  On an empty `messages` the Python source would raise
(`messages[-1]`); that case cannot occur in the graph and is modelled as a
pass-through. -/
def node_execute_tools_parallel (s : AgentState)
    (ex : ToolCall → Except String ToolResult) : AgentState :=
  match s.messages.getLast? with
  | none => s
  | some lastMessage =>
    let tcs := lastMessage.toolCalls
    if tcs.isEmpty then s
    else
      let toolMessages := tcs.map (fun tc => mkToolMessage tc (ex tc))
      let captured := captureResults ex tcs [] []
      let s1 := { s with messages := s.messages ++ toolMessages }
      let s2 := if captured.fst.isEmpty then s1
                else { s1 with weather_data := some captured.fst }
      if captured.snd.isEmpty then s2
      else { s2 with image_urls := some captured.snd }

/-- The cache-miss case of `node_format_output`: one more language-model
call generates the summary; a failure there is caught and recorded, leaving
`final_output` and `city_summary` untouched (they are assigned only after
the call returns). -/
def formatGenerateSummary (s : AgentState)
    (summaryResponse : Except String String) : AgentState :=
  match summaryResponse with
  | .ok generated =>
    { s with city_summary := some generated,
             final_output := some ⟨generated, optList s.weather_data,
                                   optList s.image_urls⟩ }
  | .error e => { s with error_message := some e }

/-- `node_format_output` (`nodes.py`).  Returns the new state paired with
the number of language-model calls the stage made (`if not city_summary`
guards the single call).  `summaryResponse` is that call's outcome. -/
def node_format_output (s : AgentState)
    (summaryResponse : Except String String) : AgentState × Nat :=
  match s.city_summary with
  | some summary =>
    if summary = "" then
      (formatGenerateSummary s summaryResponse, 1)
    else
      ({ s with final_output := some ⟨summary, optList s.weather_data,
                                      optList s.image_urls⟩ }, 0)
  | none => (formatGenerateSummary s summaryResponse, 1)

/-! ## Orchestrator (`src/graph/graph_builder.py`) -/

/-- The two labels `route_based_on_cache` can return. -/
inductive Route : Type where
  | cache_hit
  | cache_miss
deriving DecidableEq, Repr

/-- `route_based_on_cache` (`graph_builder.py`): the branch predicate reads
only `state.vector_store_match`; Python truthiness makes `None` route like
`False`. -/
def route_based_on_cache (s : AgentState) : Route :=
  match s.vector_store_match with
  | some true => .cache_hit
  | _ => .cache_miss

/-- The external collaborators one turn consumes, gathered as oracles:
the extraction reply content, the knowledge store, the tool-decision model
reply, the per-request tool outcomes, the two direct tool fetches of the
cached path (produced by `execute_tool` on the current city in the source),
and the summary-generation model reply. -/
structure TurnOracles : Type where
  extraction : String
  store : Store
  llmToolDecision : Except String Message
  toolOutcomes : ToolCall → Except String ToolResult
  cachedWeather : Except String (List WeatherDataPoint)
  cachedImages : Except String (List String)
  summary : Except String String

/-- One full turn of the compiled graph (`build_travel_graph`):
`classify_query → check_vector_store → (route) → use_cached_context |
(call_llm → execute_tools) → format_output`, returning the final state and
the route the conditional edge took. -/
def runTurn (s0 : AgentState) (o : TurnOracles) : AgentState × Route :=
  let s1 := node_classify_query s0 o.extraction
  let s2 := node_check_vector_store s1 o.store
  match route_based_on_cache s2 with
  | .cache_hit =>
    let s3 := node_use_cached_context s2 o.cachedWeather o.cachedImages
    ((node_format_output s3 o.summary).fst, .cache_hit)
  | .cache_miss =>
    let s3 := node_call_llm_with_tools s2 o.llmToolDecision
    let s4 := node_execute_tools_parallel s3 o.toolOutcomes
    ((node_format_output s4 o.summary).fst, .cache_miss)

/-! ## Display-side re-parsing (modelled from the spec) -/

/-- Python `dict` lookup on a decoded JSON object. -/
def jsonLookup : List (String × Json) → String → Option Json
  | [], _ => none
  | (k, v) :: rest, key => if k = key then some v else jsonLookup rest key

/-- A decoded JSON string, else `none`. -/
def Json.asStr : Json → Option String
  | .str s => some s
  | _ => none

/-- A decoded JSON number, else `none`. -/
def Json.asNum : Json → Option ℚ
  | .num q => some q
  | _ => none

/-- Modelled from the spec: the display-side re-parsing of one serialized
forecast point ("a tool result serialized into a tool-result entry and later
re-parsed for display must recover the same structured fields
(date/temperature/condition/humidity for forecasts)").  The repository's
rendering layer consumes `final_output` directly and has no JSON re-parser
of its own, so this is the canonical reader of the spec's field list. -/
def weatherPointFromJson : Json → Option WeatherDataPoint
  | .obj fields => do
    let d ← (jsonLookup fields "date").bind Json.asStr
    let t ← (jsonLookup fields "temperature").bind Json.asNum
    let c ← (jsonLookup fields "condition").bind Json.asStr
    let h ← (jsonLookup fields "humidity").bind Json.asNum
    pure { date := d, temperature := t, condition := c, humidity := h }
  | _ => none

/-- Modelled from the spec: re-parse every point of a serialized forecast. -/
def parseForecastItems : List Json → Option (List WeatherDataPoint)
  | [] => some []
  | j :: rest => do
    let p ← weatherPointFromJson j
    let ps ← parseForecastItems rest
    pure (p :: ps)

/-- Modelled from the spec: the display-side re-parsing of a serialized
forecast-tool result. -/
def forecastFromJson : Json → Option (List WeatherDataPoint)
  | .arr xs => parseForecastItems xs
  | _ => none

/-- Modelled from the spec: re-parse every URL of a serialized gallery. -/
def parseGalleryItems : List Json → Option (List String)
  | [] => some []
  | j :: rest => do
    let u ← j.asStr
    let us ← parseGalleryItems rest
    pure (u :: us)

/-- Modelled from the spec: the display-side re-parsing of a serialized
gallery-tool result ("URL list for gallery"). -/
def galleryFromJson : Json → Option (List String)
  | .arr xs => parseGalleryItems xs
  | _ => none

/-! ## Captured-result bookkeeping used to state the execute-tools claims -/

/-- An executor is well-typed when a successful `get_weather`
(`get_images`) request yields a forecast (gallery) result — true of
`execute_tool` (`execute_tool_result_shape`), and the regime in which
`captureResults` coincides with the Python loop. -/
def WellTypedExec (ex : ToolCall → Except String ToolResult) : Prop :=
  ∀ tc r, ex tc = .ok r →
    (tc.name = "get_weather" → ∃ ps, r = .weather ps) ∧
    (tc.name = "get_images" → ∃ us, r = .images us)

/-- The successful forecast results among the requests, in request order. -/
def successfulWeatherResults (ex : ToolCall → Except String ToolResult)
    (tcs : List ToolCall) : List (List WeatherDataPoint) :=
  tcs.filterMap fun tc =>
    match ex tc with
    | .ok (.weather ps) => if tc.name = "get_weather" then some ps else none
    | _ => none

/-- The successful gallery results among the requests, in request order. -/
def successfulImageResults (ex : ToolCall → Except String ToolResult)
    (tcs : List ToolCall) : List (List String) :=
  tcs.filterMap fun tc =>
    match ex tc with
    | .ok (.images us) => if tc.name = "get_images" then some us else none
    | _ => none

/-! ## Concrete example inputs used by counterexamples and witnesses -/

/-- A concrete date oracle (the formatted dates `datetime.now()` would
produce on one fixed day). -/
def exDates : Nat → String := fun i => "2026-10-" ++ toString (13 + i)

/-- The real executor: each request dispatched through `execute_tool`. -/
def exExec : ToolCall → Except String ToolResult :=
  fun tc => execute_tool tc.name tc.args exDates

/-- Two `get_weather` requests in one assistant turn (Paris, then Tokyo),
both of which succeed under `exExec`. -/
def twoWeatherCalls : List ToolCall :=
  [⟨"call_1", "get_weather", [("city", "Paris")]⟩,
   ⟨"call_2", "get_weather", [("city", "Tokyo")]⟩]

/-- A turn state whose latest assistant message carries `twoWeatherCalls`. -/
def twoWeathersState : AgentState :=
  { messages := [.human "Compare Paris and Tokyo weather", .ai "" twoWeatherCalls] }

/-- A state entering the cache-check stage with a valid extracted city. -/
def parisCheckState : AgentState :=
  { messages := [.human "Tell me about Paris"], city_name := some "Paris" }

/-- A store whose nearest neighbor to every query is the stored Paris fact
at distance mkRat 43 100 (the observed in-threshold distance). -/
def parisHitStore : Store := fun _ => .ok (some ⟨mkRat 43 100, "Paris fact."⟩)

/-- A store whose every query raises an I/O error. -/
def downStore : Store := fun _ => .error "connection refused"

/-- The initial state of a cold-path turn about an unknown destination. -/
def atlantisState : AgentState := { messages := [.human "Tell me about Atlantis"] }

/-- Oracles for a cold-path turn in which every upstream collaborator
succeeds and only the formatting stage's summary model call fails. -/
def atlantisOracles : TurnOracles :=
  { extraction := "Atlantis"
    store := fun _ => .ok (some ⟨mkRat 9 10, "Paris fact."⟩)
    llmToolDecision := .ok (.ai "Atlantis is not a real destination." [])
    toolOutcomes := exExec
    cachedWeather := .ok []
    cachedImages := .ok []
    summary := .error "model timeout" }

/-- The same cold-path turn with a summary model call that succeeds. -/
def atlantisOkOracles : TurnOracles :=
  { atlantisOracles with summary := .ok "Atlantis summary." }

/-- A sticky-entity state: the previous turn extracted "Tokyo" and cached
facts and flags for it. -/
def tokyoFollowUpState : AgentState :=
  { messages := [.human "Tell me about Tokyo", .human "what about the weather"]
    city_name := some "Tokyo"
    vector_store_match := some true
    cache_hit := some true
    city_summary := some "Tokyo fact."
    weather_data := some (fetch_weather_forecast "Tokyo" exDates)
    image_urls := some (fetch_city_images "Tokyo")
    final_output := some ⟨"Tokyo fact.", [], []⟩ }

/-! ## Helper lemmas -/

theorem weatherPointFromJson_toJson (p : WeatherDataPoint) :
    weatherPointFromJson (WeatherDataPoint.toJson p) = some p := rfl

theorem parseForecastItems_map (ps : List WeatherDataPoint) :
    parseForecastItems (ps.map WeatherDataPoint.toJson) = some ps := by
  induction ps with
  | nil => rfl
  | cons p rest ih => simp [parseForecastItems, weatherPointFromJson_toJson, ih]

theorem parseGalleryItems_map (us : List String) :
    parseGalleryItems (us.map Json.str) = some us := by
  induction us with
  | nil => rfl
  | cons u rest ih => simp [parseGalleryItems, Json.asStr, ih]

theorem execute_tool_get_weather (args : List (String × String)) (dates : Nat → String) :
    execute_tool "get_weather" args dates =
      .ok (.weather (fetch_weather_forecast (pyGetArg args "city" "Unknown") dates)) := rfl

theorem execute_tool_get_images (args : List (String × String)) (dates : Nat → String) :
    execute_tool "get_images" args dates =
      .ok (.images (fetch_city_images (pyGetArg args "city" "Unknown"))) := rfl

theorem execute_tool_wellTyped (dates : Nat → String) :
    WellTypedExec (fun tc => execute_tool tc.name tc.args dates) := by
  intro tc r h
  have h' : execute_tool tc.name tc.args dates = .ok r := h
  constructor
  · intro hn
    rw [hn, execute_tool_get_weather] at h'
    exact ⟨_, (Except.ok.inj h').symm⟩
  · intro hn
    rw [hn, execute_tool_get_images] at h'
    exact ⟨_, (Except.ok.inj h').symm⟩

/-! ## C9 and C10 -/

/-- **C9.** Round-trip: serializing a successful weather or image tool
result into a tool-result entry (per-point `dict()` conversion followed by
JSON encoding, as in `node_execute_tools_parallel`) and re-parsing that
JSON recovers exactly the same structured fields: date, temperature,
condition and humidity for each forecast point, and the same URL list in
the same order for a gallery result. -/
theorem tool_result_round_trip :
    (∀ ps, forecastFromJson (serializeToolResult (.weather ps)) = some ps) ∧
    (∀ us, galleryFromJson (serializeToolResult (.images us)) = some us) := by
  constructor
  · intro ps
    simpa [serializeToolResult, forecastFromJson] using parseForecastItems_map ps
  · intro us
    simpa [serializeToolResult, galleryFromJson] using parseGalleryItems_map us

/-- **C10.** `execute_tool` fails (raises `ValueError`) exactly on tool
names outside {`get_weather`, `get_images`, `web_search`}; an argument map
lacking the required `city` field does not fail: the argument defaults to
`"Unknown"` and the tool returns fallback data — the 7 generated forecast
points for `get_weather`, the 3 placeholder URLs for `get_images`. -/
theorem execute_tool_unknown_only_failure :
    (∀ name args dates, (∃ e, execute_tool name args dates = .error e) ↔
        ¬ (name = "get_weather" ∨ name = "get_images" ∨ name = "web_search")) ∧
    (∀ args dates, args.lookup "city" = none →
        execute_tool "get_weather" args dates = .ok (.weather (fallbackForecast dates)) ∧
        (fallbackForecast dates).length = 7) ∧
    (∀ args dates, args.lookup "city" = none →
        execute_tool "get_images" args dates = .ok (.images (placeholderImages "Unknown")) ∧
        (placeholderImages "Unknown").length = 3) := by
  refine ⟨?_, ?_, ?_⟩
  · intro name args dates
    constructor
    · rintro ⟨e, he⟩ h
      rcases h with h | h | h <;> subst h <;> simp [execute_tool] at he
    · intro h
      push_neg at h
      obtain ⟨h1, h2, h3⟩ := h
      exact ⟨"Unknown tool: " ++ name, by simp [execute_tool, h1, h2, h3]⟩
  · intro args dates h
    refine ⟨?_, rfl⟩
    rw [execute_tool_get_weather]
    have e2 : pyGetArg args "city" "Unknown" = "Unknown" := by simp [pyGetArg, h]
    rw [e2]
    rfl
  · intro args dates h
    refine ⟨?_, rfl⟩
    rw [execute_tool_get_images]
    have e2 : pyGetArg args "city" "Unknown" = "Unknown" := by simp [pyGetArg, h]
    rw [e2]
    rfl

/-- Witness for `execute_tool_unknown_only_failure`: the empty argument map
lacks `city`; the two fallback conclusions hold there, and an unknown name
fails. -/
theorem execute_tool_unknown_only_failure_witness :
    execute_tool "get_weather" [] exDates = .ok (.weather (fallbackForecast exDates)) ∧
    execute_tool "get_images" [] exDates = .ok (.images (placeholderImages "Unknown")) ∧
    (∃ e, execute_tool "get_translation" [] exDates = .error e) :=
  ⟨(execute_tool_unknown_only_failure.2.1 [] exDates rfl).1,
   (execute_tool_unknown_only_failure.2.2 [] exDates rfl).1,
   (execute_tool_unknown_only_failure.1 "get_translation" [] exDates).mpr (by decide)⟩

/-! ## C1: one branch per turn, decided by the cache flag alone -/

theorem route_cache_hit_iff (s : AgentState) :
    route_based_on_cache s = .cache_hit ↔ s.vector_store_match = some true := by
  cases h : s.vector_store_match with
  | none => simp [route_based_on_cache, h]
  | some b => cases b <;> simp [route_based_on_cache, h]

theorem use_cached_context_vsm (s : AgentState)
    (w : Except String (List WeatherDataPoint)) (i : Except String (List String)) :
    (node_use_cached_context s w i).vector_store_match = s.vector_store_match := by
  unfold node_use_cached_context
  split <;> rfl

theorem call_llm_vsm (s : AgentState) (r : Except String Message) :
    (node_call_llm_with_tools s r).vector_store_match = s.vector_store_match := by
  cases r <;> rfl

theorem execute_tools_vsm (s : AgentState) (ex : ToolCall → Except String ToolResult) :
    (node_execute_tools_parallel s ex).vector_store_match = s.vector_store_match := by
  unfold node_execute_tools_parallel
  cases s.messages.getLast? with
  | none => rfl
  | some m => dsimp only; split_ifs <;> rfl

theorem format_output_vsm (s : AgentState) (resp : Except String String) :
    ((node_format_output s resp).fst).vector_store_match = s.vector_store_match := by
  unfold node_format_output formatGenerateSummary
  cases s.city_summary with
  | none => cases resp <;> rfl
  | some v => dsimp only; split_ifs <;> [(cases resp <;> rfl); rfl]

/-- **C1.** Exactly one of the two branch paths executes per turn — the
conditional edge maps each turn to `use_cached_context` or to
`call_llm → execute_tools`, never both — and the route is the cache-hit
route exactly when `vector_store_match` is `True` at branch time; no stage
that runs after the branch decision (`use_cached_context`,
`call_llm_with_tools`, `execute_tools_parallel`, `format_output`) mutates
`vector_store_match`, so the final state still carries the pre-branch
value. -/
theorem branch_exclusive_and_flag_stable :
    (∀ s, route_based_on_cache s = .cache_hit ↔ s.vector_store_match = some true) ∧
    (∀ s w i, (node_use_cached_context s w i).vector_store_match = s.vector_store_match) ∧
    (∀ s r, (node_call_llm_with_tools s r).vector_store_match = s.vector_store_match) ∧
    (∀ s ex, (node_execute_tools_parallel s ex).vector_store_match = s.vector_store_match) ∧
    (∀ s resp, ((node_format_output s resp).fst).vector_store_match = s.vector_store_match) ∧
    (∀ s0 o,
      ((runTurn s0 o).snd = .cache_hit ↔
        (node_check_vector_store (node_classify_query s0 o.extraction)
          o.store).vector_store_match = some true) ∧
      (runTurn s0 o).fst.vector_store_match =
        (node_check_vector_store (node_classify_query s0 o.extraction)
          o.store).vector_store_match) := by
  refine ⟨route_cache_hit_iff, use_cached_context_vsm, call_llm_vsm,
          execute_tools_vsm, format_output_vsm, ?_⟩
  intro s0 o
  set s2 := node_check_vector_store (node_classify_query s0 o.extraction) o.store with hs2
  cases h : route_based_on_cache s2 with
  | cache_hit =>
    have hv : s2.vector_store_match = some true := (route_cache_hit_iff s2).mp h
    constructor
    · simp [runTurn, ← hs2, h, hv]
    · simp only [runTurn, ← hs2, h]
      rw [format_output_vsm, use_cached_context_vsm]
  | cache_miss =>
    have hv : ¬ s2.vector_store_match = some true := by
      intro hc
      have := (route_cache_hit_iff s2).mpr hc
      rw [h] at this
      exact Route.noConfusion this
    constructor
    · simp [runTurn, ← hs2, h, hv]
    · simp only [runTurn, ← hs2, h]
      rw [format_output_vsm, execute_tools_vsm, call_llm_vsm]

/-! ## C3 and C5: the cache-check stage -/

/-- **C3.** The cache-check decision rule: an absent, empty, or
`"Unknown"` entity sets both cache flags false with no store query (the
result does not depend on the store at all); any other entity sets both
flags true and stores the retrieved fact text exactly when the
nearest-neighbor query returns a result whose distance is strictly below
the cutoff `0.5` (`distance < threshold`), and sets both flags false
otherwise (distance at or above the cutoff, no result, or a store
error). -/
theorem cache_check_decision_rule :
    (∀ s store store',
        (s.city_name = none ∨ s.city_name = some "" ∨ s.city_name = some "Unknown") →
        node_check_vector_store s store =
          { s with vector_store_match := some false, cache_hit := some false } ∧
        node_check_vector_store s store = node_check_vector_store s store') ∧
    (∀ s store city r, s.city_name = some city → city ≠ "" → city ≠ "Unknown" →
        store (pyStrip city) = .ok (some r) →
        (r.distance < mkRat 5 10 →
          node_check_vector_store s store =
            { s with vector_store_match := some true, cache_hit := some true,
                     city_summary := some (pyStrip r.document) }) ∧
        (¬ r.distance < mkRat 5 10 →
          node_check_vector_store s store =
            { s with vector_store_match := some false, cache_hit := some false })) ∧
    (∀ s store city, s.city_name = some city → city ≠ "" → city ≠ "Unknown" →
        (store (pyStrip city) = .ok none ∨ ∃ e, store (pyStrip city) = .error e) →
        node_check_vector_store s store =
          { s with vector_store_match := some false, cache_hit := some false }) := by
  refine ⟨?_, ?_, ?_⟩
  · intro s store store' h
    rcases h with h | h | h <;> exact ⟨by simp [node_check_vector_store, h],
      by simp [node_check_vector_store, h]⟩
  · intro s store city r hc h1 h2 hq
    constructor
    · intro hd
      simp [node_check_vector_store, hc, h1, h2, query_vector_store, hq, hd,
            get_city_fact]
    · intro hd
      simp [node_check_vector_store, hc, h1, h2, query_vector_store, hq, hd]
  · intro s store city hc h1 h2 hq
    rcases hq with hq | ⟨e, hq⟩ <;>
      simp [node_check_vector_store, hc, h1, h2, query_vector_store, hq]

/-- Witness for `cache_check_decision_rule`: a "Paris" query against a
store answering with the stored Paris fact at distance `0.43` is a hit and
stores the stripped fact text. -/
theorem cache_check_decision_rule_witness :
    node_check_vector_store parisCheckState parisHitStore =
      { parisCheckState with
          vector_store_match := some true, cache_hit := some true,
          city_summary := some (pyStrip "Paris fact.") } :=
  (cache_check_decision_rule.2.1 parisCheckState parisHitStore "Paris"
      ⟨mkRat 43 100, "Paris fact."⟩ rfl (by decide) (by decide) rfl).1 (by decide)

/-- **C5 counterexample.** An I/O error raised by the knowledge store
during the cache-check stage is NOT recorded in `last_error`: with every
store query raising "connection refused", the stage leaves `error_message`
at `none` (the `except Exception` inside `query_vector_store` swallows the
error before the node's own handler — the one that would set
`error_message` — can see it), while still proceeding as a miss. -/
theorem store_error_not_recorded :
    (node_check_vector_store parisCheckState downStore).vector_store_match = some false ∧
    (node_check_vector_store parisCheckState downStore).cache_hit = some false ∧
    (node_check_vector_store parisCheckState downStore).error_message = none :=
  ⟨rfl, rfl, rfl⟩

/-- **C5 amended.** Every I/O error raised by the knowledge store during
the cache-check stage is caught (inside the store-query helper) and the
turn proceeds as a cache miss — both cache flags false, nothing else
changed and nothing raised — but the error message is NOT recorded in
`last_error`, which is left unchanged. -/
theorem store_error_fail_open (s : AgentState) (store : Store) (city e : String)
    (hc : s.city_name = some city) (h1 : city ≠ "") (h2 : city ≠ "Unknown")
    (hs : store (pyStrip city) = .error e) :
    node_check_vector_store s store =
      { s with vector_store_match := some false, cache_hit := some false } := by
  simp [node_check_vector_store, hc, h1, h2, query_vector_store, hs]

/-- Witness for `store_error_fail_open` at the concrete failing store. -/
theorem store_error_fail_open_witness :
    node_check_vector_store parisCheckState downStore =
      { parisCheckState with vector_store_match := some false, cache_hit := some false } :=
  store_error_fail_open parisCheckState downStore "Paris" "connection refused"
    rfl (by decide) (by decide) rfl

/-! ## C2: sticky entity -/

/-- **C2.** Sticky-entity: when the extractor yields the empty/unknown
sentinel for the current message and a previous-turn entity exists that is
neither empty nor the `"Unknown"` sentinel, the classification stage keeps
the previous entity (previous-turn entities are `title()`-normalized, which
the hypothesis `ht` records), clears exactly `weather_data` and
`image_urls`, and leaves `city_summary`, `cache_hit`,
`vector_store_match`, `final_output`, `messages` and `error_message`
unchanged. -/
theorem classify_sticky_entity (s : AgentState) (raw prev : String)
    (hprev : s.city_name = some prev)
    (hne : prev ≠ "") (hnu : prev ≠ "Unknown")
    (ht : pythonTitle prev = prev)
    (hsent : isUnknownExtraction (normalizeExtraction raw) = true) :
    (node_classify_query s raw).city_name = some prev ∧
    (node_classify_query s raw).weather_data = some [] ∧
    (node_classify_query s raw).image_urls = some [] ∧
    (node_classify_query s raw).city_summary = s.city_summary ∧
    (node_classify_query s raw).cache_hit = s.cache_hit ∧
    (node_classify_query s raw).vector_store_match = s.vector_store_match ∧
    (node_classify_query s raw).final_output = s.final_output ∧
    (node_classify_query s raw).messages = s.messages ∧
    (node_classify_query s raw).error_message = s.error_message := by
  simp [node_classify_query, hsent, hprev, hne, hnu, ht]

/-- Witness for `classify_sticky_entity`: a follow-up turn whose message
extracts nothing ("None") reuses "Tokyo". -/
theorem classify_sticky_entity_witness :
    (node_classify_query tokyoFollowUpState "None").city_name = some "Tokyo" ∧
    (node_classify_query tokyoFollowUpState "None").weather_data = some [] ∧
    (node_classify_query tokyoFollowUpState "None").image_urls = some [] ∧
    (node_classify_query tokyoFollowUpState "None").city_summary =
      tokyoFollowUpState.city_summary ∧
    (node_classify_query tokyoFollowUpState "None").cache_hit =
      tokyoFollowUpState.cache_hit ∧
    (node_classify_query tokyoFollowUpState "None").vector_store_match =
      tokyoFollowUpState.vector_store_match ∧
    (node_classify_query tokyoFollowUpState "None").final_output =
      tokyoFollowUpState.final_output ∧
    (node_classify_query tokyoFollowUpState "None").messages =
      tokyoFollowUpState.messages ∧
    (node_classify_query tokyoFollowUpState "None").error_message =
      tokyoFollowUpState.error_message :=
  classify_sticky_entity tokyoFollowUpState "None" "Tokyo" rfl (by decide)
    (by decide) rfl rfl

/-! ## C8: formatting behavior -/

/-- **C8.** Formatting: when `city_summary` is present (non-null and
non-empty: Python truthiness) it is used verbatim with zero language-model
calls; when absent, exactly one model call produces the summary and is
also stored back into `city_summary`; in both cases `final_output` is the
record combining the summary with the current (or-empty) `weather_data`
and `image_urls`. -/
theorem format_output_behavior :
    (∀ s v resp, s.city_summary = some v → v ≠ "" →
        node_format_output s resp =
          ({ s with
             final_output := some ⟨v, optList s.weather_data, optList s.image_urls⟩ },
           0)) ∧
    (∀ s g, (s.city_summary = none ∨ s.city_summary = some "") →
        node_format_output s (.ok g) =
          ({ s with
             city_summary := some g,
             final_output := some ⟨g, optList s.weather_data, optList s.image_urls⟩ },
           1)) := by
  constructor
  · intro s v resp hc hv
    simp [node_format_output, hc, hv]
  · intro s g hc
    rcases hc with hc | hc <;>
      simp [node_format_output, formatGenerateSummary, hc]

/-- Witness for `format_output_behavior`: the cached Tokyo summary is used
verbatim with zero model calls (the summary oracle is an error and is
never consulted); the Atlantis state with no summary gets the generated
one with exactly one call. -/
theorem format_output_behavior_witness :
    node_format_output tokyoFollowUpState (.error "unused") =
      ({ tokyoFollowUpState with
         final_output := some ⟨"Tokyo fact.", optList tokyoFollowUpState.weather_data,
                               optList tokyoFollowUpState.image_urls⟩ },
       0) ∧
    node_format_output atlantisState (.ok "Atlantis summary.") =
      ({ atlantisState with
         city_summary := some "Atlantis summary.",
         final_output := some ⟨"Atlantis summary.", optList atlantisState.weather_data,
                               optList atlantisState.image_urls⟩ },
       1) :=
  ⟨format_output_behavior.1 tokyoFollowUpState "Tokyo fact." (.error "unused")
      rfl (by decide),
   format_output_behavior.2 atlantisState "Atlantis summary." (Or.inl rfl)⟩

/-! ## C7: `final_output` production -/

theorem classify_final_output (s : AgentState) (raw : String) :
    (node_classify_query s raw).final_output = s.final_output ∨
    (node_classify_query s raw).final_output = none := by
  unfold node_classify_query clearDerivedFields
  dsimp only
  split
  · split
    · split_ifs
      · exact Or.inl rfl
      · exact Or.inr rfl
    · exact Or.inr rfl
  · exact Or.inr rfl

theorem check_vector_store_final_output (s : AgentState) (store : Store) :
    (node_check_vector_store s store).final_output = s.final_output := by
  unfold node_check_vector_store
  cases s.city_name with
  | none => rfl
  | some city => dsimp only; split_ifs <;> rfl

theorem use_cached_context_final_output (s : AgentState)
    (w : Except String (List WeatherDataPoint)) (i : Except String (List String)) :
    (node_use_cached_context s w i).final_output = s.final_output := by
  unfold node_use_cached_context
  split <;> rfl

theorem call_llm_final_output (s : AgentState) (r : Except String Message) :
    (node_call_llm_with_tools s r).final_output = s.final_output := by
  cases r <;> rfl

theorem execute_tools_final_output (s : AgentState)
    (ex : ToolCall → Except String ToolResult) :
    (node_execute_tools_parallel s ex).final_output = s.final_output := by
  unfold node_execute_tools_parallel
  cases s.messages.getLast? with
  | none => rfl
  | some m => dsimp only; split_ifs <;> rfl

theorem format_output_ok_some (s : AgentState) (g : String) :
    (((node_format_output s (.ok g)).fst).final_output).isSome = true := by
  unfold node_format_output formatGenerateSummary
  cases s.city_summary with
  | none => rfl
  | some v => dsimp only; split_ifs <;> rfl

/-- **C7 counterexample.** A completed turn can end with `final_output`
null although no error occurred upstream of the formatting stage: on this
cold-path turn the extraction, store query, and tool-decision model call
all succeed, but the formatting stage's own summary model call fails — the
turn completes with `final_output = none` (the claim predicts non-null,
since the only error is inside formatting, not upstream of it). -/
theorem final_output_null_without_upstream_error :
    (runTurn atlantisState atlantisOracles).snd = .cache_miss ∧
    ((runTurn atlantisState atlantisOracles).fst).final_output = none ∧
    ((runTurn atlantisState atlantisOracles).fst).error_message = some "model timeout" :=
  ⟨rfl, rfl, rfl⟩

/-- **C7 amended.** `final_output` is non-null at turn completion unless an
unrecoverable error occurred upstream of *or within* the formatting stage:
whenever the formatting stage's summary model call succeeds (or is not
needed) the completed turn's `final_output` is set; the formatting stage is
the sole producer of `final_output` (every other stage either preserves it
or clears it to null, never sets it) and runs exactly once per turn on both
paths. -/
theorem format_sole_producer_of_final_output :
    (∀ s g, (((node_format_output s (.ok g)).fst).final_output).isSome = true) ∧
    (∀ s raw, (node_classify_query s raw).final_output = s.final_output ∨
        (node_classify_query s raw).final_output = none) ∧
    (∀ s store, (node_check_vector_store s store).final_output = s.final_output) ∧
    (∀ s w i, (node_use_cached_context s w i).final_output = s.final_output) ∧
    (∀ s r, (node_call_llm_with_tools s r).final_output = s.final_output) ∧
    (∀ s ex, (node_execute_tools_parallel s ex).final_output = s.final_output) ∧
    (∀ s0 o g, o.summary = .ok g →
        (((runTurn s0 o).fst).final_output).isSome = true) := by
  refine ⟨format_output_ok_some, classify_final_output,
          check_vector_store_final_output, use_cached_context_final_output,
          call_llm_final_output, execute_tools_final_output, ?_⟩
  intro s0 o g hg
  set s2 := node_check_vector_store (node_classify_query s0 o.extraction) o.store with hs2
  cases h : route_based_on_cache s2 <;> simp only [runTurn, ← hs2, h] <;> rw [hg] <;>
    exact format_output_ok_some _ _

/-- Witness for `format_sole_producer_of_final_output`: the same cold-path
turn with a succeeding summary call completes with `final_output` set. -/
theorem format_sole_producer_of_final_output_witness :
    (((runTurn atlantisState atlantisOkOracles).fst).final_output).isSome = true :=
  format_sole_producer_of_final_output.2.2.2.2.2.2 atlantisState atlantisOkOracles
    "Atlantis summary." rfl

/-! ## C4 and C6: the parallel tool-execution stage -/

theorem captureResults_eq (ex : ToolCall → Except String ToolResult)
    (hw : WellTypedExec ex) :
    ∀ (tcs : List ToolCall) (w : List WeatherDataPoint) (i : List String),
      captureResults ex tcs w i =
        ((successfulWeatherResults ex tcs).getLastD w,
         (successfulImageResults ex tcs).getLastD i) := by
  intro tcs
  induction tcs with
  | nil => intro w i; rfl
  | cons tc rest ih =>
    intro w i
    unfold captureResults
    cases hx : ex tc with
    | error e =>
      try dsimp only
      rw [ih w i]
      simp only [successfulWeatherResults, successfulImageResults,
                 List.filterMap_cons, hx]
    | ok r =>
      by_cases hn : tc.name = "get_weather"
      · obtain ⟨ps, rfl⟩ := (hw tc r hx).1 hn
        try dsimp only
        rw [if_pos hn]
        try dsimp only
        rw [ih ps i]
        simp only [successfulWeatherResults, successfulImageResults,
                   List.filterMap_cons, hx]
        try dsimp only
        rw [if_pos hn]
        try dsimp only
        rw [List.getLastD_cons]
      · by_cases hm : tc.name = "get_images"
        · obtain ⟨us, rfl⟩ := (hw tc r hx).2 hm
          try dsimp only
          rw [if_neg hn, if_pos hm]
          try dsimp only
          rw [ih w us]
          simp only [successfulWeatherResults, successfulImageResults,
                     List.filterMap_cons, hx]
          try dsimp only
          rw [if_pos hm]
          try dsimp only
          rw [List.getLastD_cons]
        · cases r with
          | weather ps =>
            try dsimp only
            rw [if_neg hn, if_neg hm]
            rw [ih w i]
            simp only [successfulWeatherResults, successfulImageResults,
                       List.filterMap_cons, hx]
            try dsimp only
            rw [if_neg hn]
          | images us =>
            try dsimp only
            rw [if_neg hn, if_neg hm]
            rw [ih w i]
            simp only [successfulWeatherResults, successfulImageResults,
                       List.filterMap_cons, hx]
            try dsimp only
            rw [if_neg hm]
          | search t =>
            try dsimp only
            rw [if_neg hn, if_neg hm]
            rw [ih w i]
            simp only [successfulWeatherResults, successfulImageResults,
                       List.filterMap_cons, hx]

theorem list_isEmpty_false_of_ne_nil {α : Type} {l : List α} (h : l ≠ []) :
    l.isEmpty = false := by
  cases l with
  | nil => exact absurd rfl h
  | cons a t => rfl

theorem execute_tools_messages_eq (s : AgentState)
    (ex : ToolCall → Except String ToolResult) (c : String)
    (tcs : List ToolCall) (rest : List Message)
    (hmsg : s.messages = rest ++ [.ai c tcs]) (hne : tcs ≠ []) :
    (node_execute_tools_parallel s ex).messages =
      s.messages ++ tcs.map fun tc => mkToolMessage tc (ex tc) := by
  unfold node_execute_tools_parallel
  rw [hmsg, List.getLast?_concat]
  dsimp only [Message.toolCalls]
  simp only [list_isEmpty_false_of_ne_nil hne, Bool.false_eq_true, if_false]
  split_ifs <;> rfl

theorem execute_tools_weather_data_eq (s : AgentState)
    (ex : ToolCall → Except String ToolResult) (hw : WellTypedExec ex)
    (c : String) (tcs : List ToolCall) (rest : List Message)
    (hmsg : s.messages = rest ++ [.ai c tcs]) (hne : tcs ≠ []) :
    (node_execute_tools_parallel s ex).weather_data =
      (if (successfulWeatherResults ex tcs).getLastD [] = [] then s.weather_data
       else some ((successfulWeatherResults ex tcs).getLastD [])) ∧
    (node_execute_tools_parallel s ex).image_urls =
      (if (successfulImageResults ex tcs).getLastD [] = [] then s.image_urls
       else some ((successfulImageResults ex tcs).getLastD [])) := by
  unfold node_execute_tools_parallel
  rw [hmsg, List.getLast?_concat]
  dsimp only [Message.toolCalls]
  simp only [list_isEmpty_false_of_ne_nil hne, Bool.false_eq_true, if_false]
  rw [captureResults_eq ex hw tcs [] []]
  generalize (successfulWeatherResults ex tcs).getLastD [] = W
  generalize (successfulImageResults ex tcs).getLastD [] = I
  by_cases hW : W = [] <;> by_cases hI : I = [] <;>
    simp [hW, hI, list_isEmpty_false_of_ne_nil]

/-- **C4 counterexample.** With two successful `get_weather` invocations in
one turn (Paris first, Tokyo second), the stage stores the LAST successful
result: `weather_data` ends as Tokyo's forecast, which differs from the
first encountered successful result (Paris's) — so "only the first
encountered successful weather result is stored" is false. -/
theorem first_weather_result_not_stored :
    (node_execute_tools_parallel twoWeathersState exExec).weather_data
      = some (fetch_weather_forecast "Tokyo" exDates) ∧
    fetch_weather_forecast "Tokyo" exDates ≠ fetch_weather_forecast "Paris" exDates :=
  ⟨rfl, by decide⟩

/-- **C4 amended.** When multiple tool invocations of the same kind succeed
in one turn, the LAST encountered successful weather result is stored into
`weather_data` and the LAST encountered successful image result into
`image_urls` (and a field is only overwritten when that last captured
result is non-empty; otherwise it keeps its previous value). -/
theorem last_tool_result_stored (s : AgentState)
    (ex : ToolCall → Except String ToolResult) (hw : WellTypedExec ex)
    (c : String) (tcs : List ToolCall) (rest : List Message)
    (hmsg : s.messages = rest ++ [.ai c tcs]) (hne : tcs ≠ []) :
    (node_execute_tools_parallel s ex).weather_data =
      (if (successfulWeatherResults ex tcs).getLastD [] = [] then s.weather_data
       else some ((successfulWeatherResults ex tcs).getLastD [])) ∧
    (node_execute_tools_parallel s ex).image_urls =
      (if (successfulImageResults ex tcs).getLastD [] = [] then s.image_urls
       else some ((successfulImageResults ex tcs).getLastD [])) :=
  execute_tools_weather_data_eq s ex hw c tcs rest hmsg hne

/-- Witness for `last_tool_result_stored` at the concrete two-weather
turn: the stored forecast is the last successful one (Tokyo's). -/
theorem last_tool_result_stored_witness :
    (node_execute_tools_parallel twoWeathersState exExec).weather_data =
      (if (successfulWeatherResults exExec twoWeatherCalls).getLastD [] = []
       then twoWeathersState.weather_data
       else some ((successfulWeatherResults exExec twoWeatherCalls).getLastD [])) ∧
    (node_execute_tools_parallel twoWeathersState exExec).image_urls =
      (if (successfulImageResults exExec twoWeatherCalls).getLastD [] = []
       then twoWeathersState.image_urls
       else some ((successfulImageResults exExec twoWeatherCalls).getLastD [])) :=
  last_tool_result_stored twoWeathersState exExec (execute_tool_wellTyped exDates)
    "" twoWeatherCalls [.human "Compare Paris and Tokyo weather"] rfl (by decide)

theorem execute_tools_no_calls (s : AgentState)
    (ex : ToolCall → Except String ToolResult) (m : Message)
    (hm : s.messages.getLast? = some m) (htc : m.toolCalls = []) :
    node_execute_tools_parallel s ex = s := by
  unfold node_execute_tools_parallel
  rw [hm]
  dsimp only
  rw [htc]
  rfl

/-- **C6.** The parallel tool-execution protocol: (a) a latest assistant
message carrying zero tool-invocation requests makes the stage a no-op
pass-through; (b) otherwise exactly one tool-result message per request is
appended to `messages`, in original request order, each correlated by the
request's id and name; (c) a failed invocation is encoded as the JSON
object `{error: <message>, tool: <name>}` instead of raising, and a
success carries the serialized result; (d) the `j`-th appended entry
depends only on the `j`-th request and its own outcome — two executors
agreeing on request `j` produce the same `j`-th entry, so one
invocation's failure never removes or alters its siblings' results. -/
theorem execute_tools_protocol :
    (∀ s ex m, s.messages.getLast? = some m → m.toolCalls = [] →
        node_execute_tools_parallel s ex = s) ∧
    (∀ s ex c tcs rest, s.messages = rest ++ [.ai c tcs] → tcs ≠ [] →
        (node_execute_tools_parallel s ex).messages =
          s.messages ++ tcs.map fun tc => mkToolMessage tc (ex tc)) ∧
    (∀ tc e, mkToolMessage tc (.error e) =
        .tool tc.id tc.name (.obj [("error", .str e), ("tool", .str tc.name)])) ∧
    (∀ tc r, mkToolMessage tc (.ok r) =
        .tool tc.id tc.name (serializeToolResult r)) ∧
    (∀ s ex ex' c tcs rest, s.messages = rest ++ [.ai c tcs] →
      ∀ j (hj : j < tcs.length), ex (tcs.get ⟨j, hj⟩) = ex' (tcs.get ⟨j, hj⟩) →
        (node_execute_tools_parallel s ex).messages[s.messages.length + j]? =
          some (mkToolMessage (tcs.get ⟨j, hj⟩) (ex (tcs.get ⟨j, hj⟩))) ∧
        (node_execute_tools_parallel s ex').messages[s.messages.length + j]? =
          some (mkToolMessage (tcs.get ⟨j, hj⟩) (ex (tcs.get ⟨j, hj⟩)))) := by
  refine ⟨execute_tools_no_calls, execute_tools_messages_eq, fun tc e => rfl,
          fun tc r => rfl, ?_⟩
  intro s ex ex' c tcs rest hmsg j hj hagree
  have hne : tcs ≠ [] := by
    intro h
    subst h
    exact absurd hj (by simp)
  rw [execute_tools_messages_eq s ex c tcs rest hmsg hne,
      execute_tools_messages_eq s ex' c tcs rest hmsg hne]
  constructor
  · rw [List.getElem?_append_right (Nat.le_add_right _ _), Nat.add_sub_cancel_left,
        List.getElem?_map, List.getElem?_eq_getElem (by simpa using hj)]
    simp
  · rw [List.getElem?_append_right (Nat.le_add_right _ _), Nat.add_sub_cancel_left,
        List.getElem?_map, List.getElem?_eq_getElem (by simpa using hj)]
    show some (mkToolMessage (tcs.get ⟨j, hj⟩) (ex' (tcs.get ⟨j, hj⟩))) =
      some (mkToolMessage (tcs.get ⟨j, hj⟩) (ex (tcs.get ⟨j, hj⟩)))
    rw [hagree]

/-- Witness for `execute_tools_protocol`: the no-op case on a turn whose
latest message is a plain human message, the append shape on the concrete
two-request turn, and the per-index correlation at index 0. -/
theorem execute_tools_protocol_witness :
    node_execute_tools_parallel atlantisState exExec = atlantisState ∧
    (node_execute_tools_parallel twoWeathersState exExec).messages =
      twoWeathersState.messages ++
        twoWeatherCalls.map (fun tc => mkToolMessage tc (exExec tc)) ∧
    (node_execute_tools_parallel twoWeathersState
        exExec).messages[twoWeathersState.messages.length + 0]? =
      some (mkToolMessage (twoWeatherCalls.get ⟨0, by decide⟩)
        (exExec (twoWeatherCalls.get ⟨0, by decide⟩))) :=
  ⟨execute_tools_protocol.1 atlantisState exExec (.human "Tell me about Atlantis")
      rfl rfl,
   execute_tools_protocol.2.1 twoWeathersState exExec "" twoWeatherCalls
      [.human "Compare Paris and Tokyo weather"] rfl (by decide),
   (execute_tools_protocol.2.2.2.2 twoWeathersState exExec exExec "" twoWeatherCalls
      [.human "Compare Paris and Tokyo weather"] rfl 0 (by decide) rfl).1⟩

end TravelAssistant
